import Mathlib

/-!
# Verification of the VDAS Whisper STT microservice (`src/whisper-stt/server.py`)

A shallow embedding of the `POST /transcribe` request handler.  The handler is
a sequential pipeline: content-type gate, size / emptiness guard, WAV parsing
and profile checks, PCM-to-float conversion, lock-guarded model invocation,
and response formatting.

Modelling conventions:
* Upload bytes are a `List ℕ` (each entry one byte); only lengths and the PCM
  payload matter to the handler.
* The outcome of `wave.open` on the upload bytes is abstracted as a function
  `List ℕ → ParseOutcome`: the Python `wave` module is a deterministic pure
  parser, so any run of the service corresponds to one such function.  Per the
  CPython 3.11 `wave` module, a successful parse guarantees a nonzero channel
  count and sample width, but the frame rate field is *not* checked and may
  be zero.
* The model invocation `whisper.log_mel_spectrogram` + `whisper.decode` is
  abstracted as an `Except String String` parameter: `.ok t` is a successful
  decode with raw text `t`, `.error e` an exception with message `e`.
* Lock acquisition `_inference_lock.acquire(timeout=10)` is abstracted as a
  `Bool` parameter (whether the lock was obtained within the bounded wait).
* Python float arithmetic appears in two places: the duration comparison
  `n_frames / sample_rate > 5.0` and the message formatting
  `f"{duration_sec:.1f}"`.  The comparison is modelled exactly over ℚ (for
  every header-representable rate `0 < rate < 2^32` the binary64 comparison
  agrees with the rational one, because `|n/rate - 5| ≥ 1/rate` is far above
  the rounding error whenever it is nonzero and rounding is monotone at the
  representable value 5.0).  The formatting is modelled exactly: `fmt1`
  rounds the rational to the nearest binary64 (round half to even on a
  53-bit significand) and then renders that value to one decimal with round
  half to even, which is what CPython's `format(x, '.1f')` computes.
* `str.strip()` and `str.lower()` are embedded exactly: the whitespace set
  is CPython's, and lowercasing uses the full Unicode simple lowercase
  table (extracted per code point from CPython 3.11 and re-validated
  exhaustively) together with the two non-simple cases CPython implements —
  the dotted capital I expansion and the context-sensitive final sigma.
-/

/-! ## Constants (server.py lines 25-30) -/

def MAX_UPLOAD_BYTES : ℕ := 1 * 1024 * 1024

def MAX_AUDIO_DURATION_SEC : ℚ := 5

def ALLOWED_SAMPLE_RATE : ℕ := 16000

def ALLOWED_CHANNELS : ℕ := 1

def ALLOWED_SAMPLE_WIDTH : ℕ := 2

/-- Whisper's fixed input window: 30 s at 16 kHz, the length
`whisper.pad_or_trim` pads or truncates to. -/
def N_SAMPLES : ℕ := 480000

/-- Bounded wait passed to `_inference_lock.acquire(timeout=10)`. -/
def LOCK_TIMEOUT_SEC : ℕ := 10

/-! ## Round half to even and float formatting

`rhe a b` is `a / b` rounded to the nearest integer, ties to even
(`b > 0` assumed).  This is the rounding used both when Python rounds a real
quotient to the nearest binary64 and when `format` renders a binary64 to a
fixed number of decimals. -/

def rhe (a b : ℕ) : ℕ :=
  let q := a / b
  let r := a % b
  if 2 * r < b then q
  else if b < 2 * r then q + 1
  else if q % 2 = 0 then q else q + 1

/-- `2 ^ t ≤ n / d` for an integer `t` and positive naturals `n`, `d`. -/
def pow2LeRat (t : ℤ) (n d : ℕ) : Bool :=
  if 0 ≤ t then decide (2 ^ t.toNat * d ≤ n) else decide (d ≤ 2 ^ (-t).toNat * n)

/-- `⌊log₂ n⌋` by structural recursion on a fuel argument (the recursion
depth is at most `log₂ n`, so `fuel = n` always suffices). -/
def log2fuel : ℕ → ℕ → ℕ
  | 0, _ => 0
  | fuel + 1, n => if n ≤ 1 then 0 else log2fuel fuel (n / 2) + 1

/-- `⌊log₂ n⌋` for `n ≥ 1` (and `0` at `0`). -/
def natLog2 (n : ℕ) : ℕ := log2fuel n n

/-- `⌊log₂ (n / d)⌋` for `n, d ≥ 1`: the candidate `⌊log₂ n⌋ - ⌊log₂ d⌋` is
correct or off by one, so one comparison settles it. -/
def floorLog2Rat (n d : ℕ) : ℤ :=
  let t : ℤ := (natLog2 n : ℤ) - (natLog2 d : ℤ)
  if pow2LeRat t n d then t else t - 1

/-- Python `f"{n / d:.1f}"` for naturals `n`, `d > 0`: `n / d` is true
division producing the binary64 nearest to the rational (round half to
even on a 53-bit significand), and `.1f` renders that binary64's exact
value to one decimal, again round half to even. -/
def fmt1 (n d : ℕ) : String :=
  if n = 0 then "0.0"
  else
    let e := floorLog2Rat n d
    let shift : ℤ := 52 - e
    -- significand of the nearest binary64: rhe of (n/d) · 2^shift
    let m : ℕ :=
      if 0 ≤ shift then rhe (n * 2 ^ shift.toNat) d else rhe n (d * 2 ^ (-shift).toNat)
    -- the binary64 value is m / 2^shift; render 10 · that, rounded half to even
    let T : ℕ :=
      if 0 ≤ shift then rhe (10 * m) (2 ^ shift.toNat) else 10 * m * 2 ^ (-shift).toNat
    toString (T / 10) ++ "." ++ toString (T % 10)

/-! ## Python string helpers: `str.strip()` and `str.lower()` -/

/-- The characters Python's `str.isspace` (and hence no-argument
`str.strip`) treats as whitespace: the CPython `Py_UNICODE_ISSPACE` set. -/
def pyIsSpace (c : Char) : Bool :=
  decide ((9 ≤ c.toNat ∧ c.toNat ≤ 13) ∨ (28 ≤ c.toNat ∧ c.toNat ≤ 31) ∨
    c.toNat = 32 ∨ c.toNat = 133 ∨ c.toNat = 160 ∨ c.toNat = 5760 ∨
    (8192 ≤ c.toNat ∧ c.toNat ≤ 8202) ∨ c.toNat = 8232 ∨ c.toNat = 8233 ∨
    c.toNat = 8239 ∨ c.toNat = 8287 ∨ c.toNat = 12288)

/-- Python `s.strip()`: remove leading and trailing whitespace. -/
def pyStrip (s : String) : String :=
  ⟨(((s.data.dropWhile pyIsSpace).reverse.dropWhile pyIsSpace).reverse)⟩

/-- The Unicode simple lowercase mapping, as runs
`(start, count, step, delta)`: the code points `start`, `start + step`, ...,
`start + (count - 1) * step` each lower to themselves plus `delta`.
Extracted per code point from CPython 3.11's `str.lower` (every scalar was
enumerated and the compression re-expanded and compared, so the table is
exact).  The two non-simple cases — dotted capital I, which expands, and
capital sigma, which is context-sensitive — are excluded and handled in
`pyLowerList`. -/
def lowerRuns : List (ℕ × ℕ × ℕ × ℤ) := [
  (65, 26, 1, 32), (192, 23, 1, 32), (216, 7, 1, 32), (256, 24, 2, 1), (306, 3, 2, 1),
  (313, 8, 2, 1), (330, 23, 2, 1), (376, 1, 1, -121), (377, 3, 2, 1), (385, 1, 1, 210),
  (386, 2, 2, 1), (390, 1, 1, 206), (391, 1, 1, 1), (393, 2, 1, 205), (395, 1, 1, 1),
  (398, 1, 1, 79), (399, 1, 1, 202), (400, 1, 1, 203), (401, 1, 1, 1), (403, 1, 1, 205),
  (404, 1, 1, 207), (406, 1, 1, 211), (407, 1, 1, 209), (408, 1, 1, 1), (412, 1, 1, 211),
  (413, 1, 1, 213), (415, 1, 1, 214), (416, 3, 2, 1), (422, 1, 1, 218), (423, 1, 1, 1),
  (425, 1, 1, 218), (428, 1, 1, 1), (430, 1, 1, 218), (431, 1, 1, 1), (433, 2, 1, 217),
  (435, 2, 2, 1), (439, 1, 1, 219), (440, 1, 1, 1), (444, 1, 1, 1), (452, 1, 1, 2),
  (453, 1, 1, 1), (455, 1, 1, 2), (456, 1, 1, 1), (458, 1, 1, 2), (459, 9, 2, 1),
  (478, 9, 2, 1), (497, 1, 1, 2), (498, 2, 2, 1), (502, 1, 1, -97), (503, 1, 1, -56),
  (504, 20, 2, 1), (544, 1, 1, -130), (546, 9, 2, 1), (570, 1, 1, 10795), (571, 1, 1, 1),
  (573, 1, 1, -163), (574, 1, 1, 10792), (577, 1, 1, 1), (579, 1, 1, -195), (580, 1, 1, 69),
  (581, 1, 1, 71), (582, 5, 2, 1), (880, 2, 2, 1), (886, 1, 1, 1), (895, 1, 1, 116),
  (902, 1, 1, 38), (904, 3, 1, 37), (908, 1, 1, 64), (910, 2, 1, 63), (913, 17, 1, 32),
  (932, 8, 1, 32), (975, 1, 1, 8), (984, 12, 2, 1), (1012, 1, 1, -60), (1015, 1, 1, 1),
  (1017, 1, 1, -7), (1018, 1, 1, 1), (1021, 3, 1, -130), (1024, 16, 1, 80), (1040, 32, 1, 32),
  (1120, 17, 2, 1), (1162, 27, 2, 1), (1216, 1, 1, 15), (1217, 7, 2, 1), (1232, 48, 2, 1),
  (1329, 38, 1, 48), (4256, 38, 1, 7264), (4295, 1, 1, 7264), (4301, 1, 1, 7264),
  (5024, 80, 1, 38864), (5104, 6, 1, 8), (7312, 43, 1, -3008), (7357, 3, 1, -3008),
  (7680, 75, 2, 1), (7838, 1, 1, -7615), (7840, 48, 2, 1), (7944, 8, 1, -8), (7960, 6, 1, -8),
  (7976, 8, 1, -8), (7992, 8, 1, -8), (8008, 6, 1, -8), (8025, 4, 2, -8), (8040, 8, 1, -8),
  (8072, 8, 1, -8), (8088, 8, 1, -8), (8104, 8, 1, -8), (8120, 2, 1, -8), (8122, 2, 1, -74),
  (8124, 1, 1, -9), (8136, 4, 1, -86), (8140, 1, 1, -9), (8152, 2, 1, -8), (8154, 2, 1, -100),
  (8168, 2, 1, -8), (8170, 2, 1, -112), (8172, 1, 1, -7), (8184, 2, 1, -128),
  (8186, 2, 1, -126), (8188, 1, 1, -9), (8486, 1, 1, -7517), (8490, 1, 1, -8383),
  (8491, 1, 1, -8262), (8498, 1, 1, 28), (8544, 16, 1, 16), (8579, 1, 1, 1), (9398, 26, 1, 26),
  (11264, 48, 1, 48), (11360, 1, 1, 1), (11362, 1, 1, -10743), (11363, 1, 1, -3814),
  (11364, 1, 1, -10727), (11367, 3, 2, 1), (11373, 1, 1, -10780), (11374, 1, 1, -10749),
  (11375, 1, 1, -10783), (11376, 1, 1, -10782), (11378, 1, 1, 1), (11381, 1, 1, 1),
  (11390, 2, 1, -10815), (11392, 50, 2, 1), (11499, 2, 2, 1), (11506, 1, 1, 1),
  (42560, 23, 2, 1), (42624, 14, 2, 1), (42786, 7, 2, 1), (42802, 31, 2, 1), (42873, 2, 2, 1),
  (42877, 1, 1, -35332), (42878, 5, 2, 1), (42891, 1, 1, 1), (42893, 1, 1, -42280),
  (42896, 2, 2, 1), (42902, 10, 2, 1), (42922, 1, 1, -42308), (42923, 1, 1, -42319),
  (42924, 1, 1, -42315), (42925, 1, 1, -42305), (42926, 1, 1, -42308), (42928, 1, 1, -42258),
  (42929, 1, 1, -42282), (42930, 1, 1, -42261), (42931, 1, 1, 928), (42932, 8, 2, 1),
  (42948, 1, 1, -48), (42949, 1, 1, -42307), (42950, 1, 1, -35384), (42951, 2, 2, 1),
  (42960, 1, 1, 1), (42966, 2, 2, 1), (42997, 1, 1, 1), (65313, 26, 1, 32), (66560, 40, 1, 40),
  (66736, 36, 1, 40), (66928, 11, 1, 39), (66940, 15, 1, 39), (66956, 7, 1, 39),
  (66964, 2, 1, 39), (68736, 51, 1, 64), (71840, 32, 1, 32), (93760, 32, 1, 32),
  (125184, 34, 1, 34)]

def lowerLookup : List (ℕ × ℕ × ℕ × ℤ) → ℕ → ℕ
  | [], n => n
  | (s, cnt, st, d) :: rest, n =>
    if s ≤ n ∧ n < s + cnt * st ∧ (n - s) % st = 0 then ((n : ℤ) + d).toNat
    else lowerLookup rest n

/-- Inclusive code-point ranges carrying the Unicode `Cased` property, as
CPython's case-mapping code consults it; extracted per code point from the
environment's CPython 3.11 and exhaustively re-validated. -/
def casedRanges : List (ℕ × ℕ) := [
  (65, 90), (97, 122), (170, 170), (181, 181), (186, 186), (192, 214), (216, 246), (248, 442),
  (444, 447), (452, 659), (661, 687), (880, 883), (886, 887), (891, 893), (895, 895),
  (902, 902), (904, 906), (908, 908), (910, 929), (931, 1013), (1015, 1153), (1162, 1327),
  (1329, 1366), (1376, 1416), (4256, 4293), (4295, 4295), (4301, 4301), (4304, 4346),
  (4349, 4351), (5024, 5109), (5112, 5117), (7296, 7304), (7312, 7354), (7357, 7359),
  (7424, 7467), (7531, 7543), (7545, 7578), (7680, 7957), (7960, 7965), (7968, 8005),
  (8008, 8013), (8016, 8023), (8025, 8025), (8027, 8027), (8029, 8029), (8031, 8061),
  (8064, 8116), (8118, 8124), (8126, 8126), (8130, 8132), (8134, 8140), (8144, 8147),
  (8150, 8155), (8160, 8172), (8178, 8180), (8182, 8188), (8450, 8450), (8455, 8455),
  (8458, 8467), (8469, 8469), (8473, 8477), (8484, 8484), (8486, 8486), (8488, 8488),
  (8490, 8493), (8495, 8500), (8505, 8505), (8508, 8511), (8517, 8521), (8526, 8526),
  (8544, 8575), (8579, 8580), (9398, 9449), (11264, 11387), (11390, 11492), (11499, 11502),
  (11506, 11507), (11520, 11557), (11559, 11559), (11565, 11565), (42560, 42605),
  (42624, 42651), (42786, 42863), (42865, 42887), (42891, 42894), (42896, 42954),
  (42960, 42961), (42963, 42963), (42965, 42969), (42997, 42998), (43002, 43002),
  (43824, 43866), (43872, 43880), (43888, 43967), (64256, 64262), (64275, 64279),
  (65313, 65338), (65345, 65370), (66560, 66639), (66736, 66771), (66776, 66811),
  (66928, 66938), (66940, 66954), (66956, 66962), (66964, 66965), (66967, 66977),
  (66979, 66993), (66995, 67001), (67003, 67004), (68736, 68786), (68800, 68850),
  (71840, 71903), (93760, 93823), (119808, 119892), (119894, 119964), (119966, 119967),
  (119970, 119970), (119973, 119974), (119977, 119980), (119982, 119993), (119995, 119995),
  (119997, 120003), (120005, 120069), (120071, 120074), (120077, 120084), (120086, 120092),
  (120094, 120121), (120123, 120126), (120128, 120132), (120134, 120134), (120138, 120144),
  (120146, 120485), (120488, 120512), (120514, 120538), (120540, 120570), (120572, 120596),
  (120598, 120628), (120630, 120654), (120656, 120686), (120688, 120712), (120714, 120744),
  (120746, 120770), (120772, 120779), (122624, 122633), (122635, 122654), (125184, 125251),
  (127280, 127305), (127312, 127337), (127344, 127369)]

/-- Inclusive code-point ranges carrying the Unicode `Case_Ignorable`
property, extracted and validated the same way. -/
def caseIgnorableRanges : List (ℕ × ℕ) := [
  (39, 39), (46, 46), (58, 58), (94, 94), (96, 96), (168, 168), (173, 173), (175, 175),
  (180, 180), (183, 184), (688, 879), (884, 885), (890, 890), (900, 901), (903, 903),
  (1155, 1161), (1369, 1369), (1375, 1375), (1425, 1469), (1471, 1471), (1473, 1474),
  (1476, 1477), (1479, 1479), (1524, 1524), (1536, 1541), (1552, 1562), (1564, 1564),
  (1600, 1600), (1611, 1631), (1648, 1648), (1750, 1757), (1759, 1768), (1770, 1773),
  (1807, 1807), (1809, 1809), (1840, 1866), (1958, 1968), (2027, 2037), (2042, 2042),
  (2045, 2045), (2070, 2093), (2137, 2139), (2184, 2184), (2192, 2193), (2200, 2207),
  (2249, 2306), (2362, 2362), (2364, 2364), (2369, 2376), (2381, 2381), (2385, 2391),
  (2402, 2403), (2417, 2417), (2433, 2433), (2492, 2492), (2497, 2500), (2509, 2509),
  (2530, 2531), (2558, 2558), (2561, 2562), (2620, 2620), (2625, 2626), (2631, 2632),
  (2635, 2637), (2641, 2641), (2672, 2673), (2677, 2677), (2689, 2690), (2748, 2748),
  (2753, 2757), (2759, 2760), (2765, 2765), (2786, 2787), (2810, 2815), (2817, 2817),
  (2876, 2876), (2879, 2879), (2881, 2884), (2893, 2893), (2901, 2902), (2914, 2915),
  (2946, 2946), (3008, 3008), (3021, 3021), (3072, 3072), (3076, 3076), (3132, 3132),
  (3134, 3136), (3142, 3144), (3146, 3149), (3157, 3158), (3170, 3171), (3201, 3201),
  (3260, 3260), (3263, 3263), (3270, 3270), (3276, 3277), (3298, 3299), (3328, 3329),
  (3387, 3388), (3393, 3396), (3405, 3405), (3426, 3427), (3457, 3457), (3530, 3530),
  (3538, 3540), (3542, 3542), (3633, 3633), (3636, 3642), (3654, 3662), (3761, 3761),
  (3764, 3772), (3782, 3782), (3784, 3789), (3864, 3865), (3893, 3893), (3895, 3895),
  (3897, 3897), (3953, 3966), (3968, 3972), (3974, 3975), (3981, 3991), (3993, 4028),
  (4038, 4038), (4141, 4144), (4146, 4151), (4153, 4154), (4157, 4158), (4184, 4185),
  (4190, 4192), (4209, 4212), (4226, 4226), (4229, 4230), (4237, 4237), (4253, 4253),
  (4348, 4348), (4957, 4959), (5906, 5908), (5938, 5939), (5970, 5971), (6002, 6003),
  (6068, 6069), (6071, 6077), (6086, 6086), (6089, 6099), (6103, 6103), (6109, 6109),
  (6155, 6159), (6211, 6211), (6277, 6278), (6313, 6313), (6432, 6434), (6439, 6440),
  (6450, 6450), (6457, 6459), (6679, 6680), (6683, 6683), (6742, 6742), (6744, 6750),
  (6752, 6752), (6754, 6754), (6757, 6764), (6771, 6780), (6783, 6783), (6823, 6823),
  (6832, 6862), (6912, 6915), (6964, 6964), (6966, 6970), (6972, 6972), (6978, 6978),
  (7019, 7027), (7040, 7041), (7074, 7077), (7080, 7081), (7083, 7085), (7142, 7142),
  (7144, 7145), (7149, 7149), (7151, 7153), (7212, 7219), (7222, 7223), (7288, 7293),
  (7376, 7378), (7380, 7392), (7394, 7400), (7405, 7405), (7412, 7412), (7416, 7417),
  (7468, 7530), (7544, 7544), (7579, 7679), (8125, 8125), (8127, 8129), (8141, 8143),
  (8157, 8159), (8173, 8175), (8189, 8190), (8203, 8207), (8216, 8217), (8228, 8228),
  (8231, 8231), (8234, 8238), (8288, 8292), (8294, 8303), (8305, 8305), (8319, 8319),
  (8336, 8348), (8400, 8432), (11388, 11389), (11503, 11505), (11631, 11631), (11647, 11647),
  (11744, 11775), (11823, 11823), (12293, 12293), (12330, 12333), (12337, 12341),
  (12347, 12347), (12441, 12446), (12540, 12542), (40981, 40981), (42232, 42237),
  (42508, 42508), (42607, 42610), (42612, 42621), (42623, 42623), (42652, 42655),
  (42736, 42737), (42752, 42785), (42864, 42864), (42888, 42890), (42994, 42996),
  (43000, 43001), (43010, 43010), (43014, 43014), (43019, 43019), (43045, 43046),
  (43052, 43052), (43204, 43205), (43232, 43249), (43263, 43263), (43302, 43309),
  (43335, 43345), (43392, 43394), (43443, 43443), (43446, 43449), (43452, 43453),
  (43471, 43471), (43493, 43494), (43561, 43566), (43569, 43570), (43573, 43574),
  (43587, 43587), (43596, 43596), (43632, 43632), (43644, 43644), (43696, 43696),
  (43698, 43700), (43703, 43704), (43710, 43711), (43713, 43713), (43741, 43741),
  (43756, 43757), (43763, 43764), (43766, 43766), (43867, 43871), (43881, 43883),
  (44005, 44005), (44008, 44008), (44013, 44013), (64286, 64286), (64434, 64450),
  (65024, 65039), (65043, 65043), (65056, 65071), (65106, 65106), (65109, 65109),
  (65279, 65279), (65287, 65287), (65294, 65294), (65306, 65306), (65342, 65342),
  (65344, 65344), (65392, 65392), (65438, 65439), (65507, 65507), (65529, 65531),
  (66045, 66045), (66272, 66272), (66422, 66426), (67456, 67461), (67463, 67504),
  (67506, 67514), (68097, 68099), (68101, 68102), (68108, 68111), (68152, 68154),
  (68159, 68159), (68325, 68326), (68900, 68903), (69291, 69292), (69446, 69456),
  (69506, 69509), (69633, 69633), (69688, 69702), (69744, 69744), (69747, 69748),
  (69759, 69761), (69811, 69814), (69817, 69818), (69821, 69821), (69826, 69826),
  (69837, 69837), (69888, 69890), (69927, 69931), (69933, 69940), (70003, 70003),
  (70016, 70017), (70070, 70078), (70089, 70092), (70095, 70095), (70191, 70193),
  (70196, 70196), (70198, 70199), (70206, 70206), (70367, 70367), (70371, 70378),
  (70400, 70401), (70459, 70460), (70464, 70464), (70502, 70508), (70512, 70516),
  (70712, 70719), (70722, 70724), (70726, 70726), (70750, 70750), (70835, 70840),
  (70842, 70842), (70847, 70848), (70850, 70851), (71090, 71093), (71100, 71101),
  (71103, 71104), (71132, 71133), (71219, 71226), (71229, 71229), (71231, 71232),
  (71339, 71339), (71341, 71341), (71344, 71349), (71351, 71351), (71453, 71455),
  (71458, 71461), (71463, 71467), (71727, 71735), (71737, 71738), (71995, 71996),
  (71998, 71998), (72003, 72003), (72148, 72151), (72154, 72155), (72160, 72160),
  (72193, 72202), (72243, 72248), (72251, 72254), (72263, 72263), (72273, 72278),
  (72281, 72283), (72330, 72342), (72344, 72345), (72752, 72758), (72760, 72765),
  (72767, 72767), (72850, 72871), (72874, 72880), (72882, 72883), (72885, 72886),
  (73009, 73014), (73018, 73018), (73020, 73021), (73023, 73029), (73031, 73031),
  (73104, 73105), (73109, 73109), (73111, 73111), (73459, 73460), (78896, 78904),
  (92912, 92916), (92976, 92982), (92992, 92995), (94031, 94031), (94095, 94111),
  (94176, 94177), (94179, 94180), (110576, 110579), (110581, 110587), (110589, 110590),
  (113821, 113822), (113824, 113827), (118528, 118573), (118576, 118598), (119143, 119145),
  (119155, 119170), (119173, 119179), (119210, 119213), (119362, 119364), (121344, 121398),
  (121403, 121452), (121461, 121461), (121476, 121476), (121499, 121503), (121505, 121519),
  (122880, 122886), (122888, 122904), (122907, 122913), (122915, 122916), (122918, 122922),
  (123184, 123197), (123566, 123566), (123628, 123631), (125136, 125142), (125252, 125259),
  (127995, 127999), (917505, 917505), (917536, 917631), (917760, 917999)]

def inRanges : List (ℕ × ℕ) → ℕ → Bool
  | [], _ => false
  | (lo, hi) :: rest, n => (decide (lo ≤ n) && decide (n ≤ hi)) || inRanges rest n

def isCased (c : Char) : Bool := inRanges casedRanges c.toNat

def isCaseIgnorable (c : Char) : Bool := inRanges caseIgnorableRanges c.toNat

/-- The Unicode `Final_Sigma` condition exactly as CPython's
`handle_capital_sigma` evaluates it on the string being lowered: scanning
back over case-ignorable characters reaches a cased one, and scanning
forward over case-ignorable characters reaches the end or a non-cased one.
`revPre` is the reversed prefix of the original string before the sigma,
`post` the suffix after it. -/
def finalSigma (revPre post : List Char) : Bool :=
  (match revPre.dropWhile isCaseIgnorable with
   | [] => false
   | c :: _ => isCased c) &&
  (match post.dropWhile isCaseIgnorable with
   | [] => true
   | c :: _ => !isCased c)

/-- One character of Python `str.lower` outside the two special cases: the
simple lowercase table. -/
def pyLowerChar (c : Char) : Char := Char.ofNat (lowerLookup lowerRuns c.toNat)

/-- Python's per-character lowering with context: dotted capital I (U+0130)
expands to `i` plus combining dot above, capital sigma (U+03A3) lowers to
final sigma exactly under `Final_Sigma`, and every other character maps
through the simple table.  `revPre` accumulates the reversed original
prefix for the sigma context. -/
def pyLowerList : List Char → List Char → List Char
  | _, [] => []
  | revPre, c :: rest =>
    (if c.toNat = 304 then [Char.ofNat 105, Char.ofNat 775]
     else if c.toNat = 931 then
       [if finalSigma revPre rest then Char.ofNat 962 else Char.ofNat 963]
     else [pyLowerChar c]) ++ pyLowerList (c :: revPre) rest

/-- Python `s.lower()`. -/
def pyLower (s : String) : String :=
  ⟨pyLowerList [] s.data⟩

/-! ## Data model -/

/-- Properties and payload exposed by a successfully opened WAV: the values
of `getframerate`, `getnchannels`, `getsampwidth`, `getnframes`, and the
bytes returned by `readframes(n_frames)` (which may be fewer than
`2 · n_frames` when the file is truncated relative to its declared data
chunk size). -/
structure WavInfo where
  sample_rate : ℕ
  channels : ℕ
  sample_width : ℕ
  n_frames : ℕ
  pcm : List ℕ
deriving DecidableEq, Repr

/-- Outcome of `wave.open(io.BytesIO(raw_bytes))` plus the getter calls:
either the parsed info, or a non-`HTTPException` exception with message
`msg` (e.g. `wave.Error`), which the handler wraps as
`Invalid WAV file: {msg}`. -/
inductive ParseOutcome where
  | parsed (w : WavInfo)
  | parseError (msg : String)
deriving DecidableEq, Repr

/-- The handler's observable outcome: a 200 JSON body `{"text": t}`, or an
error response with a status code and detail string. -/
inductive Resp where
  | ok (text : String)
  | error (status : ℕ) (detail : String)
deriving DecidableEq, Repr

/-- Result of one run of the handler, together with the facts the
concurrency claims are about: whether the inference lock is still held
when control returns to the caller, whether the model was invoked, and
with which input. -/
structure ExecTrace where
  response : Resp
  lockAttempted : Bool
  lockHeldAtReturn : Bool
  modelInvoked : Bool
  modelInput : Option (List ℚ)
deriving DecidableEq, Repr

instance {ε α : Type} [DecidableEq ε] [DecidableEq α] : DecidableEq (Except ε α) :=
  fun x y =>
    match x, y with
    | .ok a, .ok b =>
      if h : a = b then .isTrue (by rw [h]) else .isFalse (by simp [h])
    | .error a, .error b =>
      if h : a = b then .isTrue (by rw [h]) else .isFalse (by simp [h])
    | .ok _, .error _ => .isFalse (by simp)
    | .error _, .ok _ => .isFalse (by simp)

/-! ## Validation pipeline (server.py lines 57-116) -/

def allowedContentTypes : List String :=
  ["audio/wav", "audio/wave", "audio/x-wav", "application/octet-stream"]

/-- `if file.content_type and file.content_type not in (...)`: Python
truthiness makes both a missing (`None`) and an empty-string content type
skip the check. -/
def contentTypeRejected (ct : Option String) : Bool :=
  match ct with
  | none => false
  | some c => c ≠ "" && !(allowedContentTypes.contains c)

def sizeDetail (n : ℕ) : String :=
  "File too large: " ++ (toString n ++ (" bytes. Max: " ++
    (toString MAX_UPLOAD_BYTES ++ " bytes.")))

def rateDetail (w : WavInfo) : String :=
  "Invalid sample rate: " ++ (toString w.sample_rate ++ (". Expected " ++
    (toString ALLOWED_SAMPLE_RATE ++ ".")))

def channelsDetail (w : WavInfo) : String :=
  "Invalid channels: " ++ (toString w.channels ++ (". Expected mono (" ++
    (toString ALLOWED_CHANNELS ++ ").")))

def widthDetail (w : WavInfo) : String :=
  "Invalid sample width: " ++ (toString w.sample_width ++ (" bytes. Expected " ++
    (toString ALLOWED_SAMPLE_WIDTH ++ " (16-bit).")))

def durationDetail (w : WavInfo) : String :=
  "Audio too long: " ++ (fmt1 w.n_frames w.sample_rate ++ ("s. Max: " ++
    ("5.0" ++ "s.")))

/-- `duration_sec > MAX_AUDIO_DURATION_SEC` with
`duration_sec = n_frames / sample_rate` (binary64 true division).  Stated
in the equivalent integer form `5 · sample_rate < n_frames`: for every
header-representable rate (`0 < rate < 2^32`; the zero case is guarded
before this check runs) the binary64 comparison agrees, see the header
comment.  `durationExceeded_iff_q` below relates it to the rational
quotient. -/
def durationExceeded (w : WavInfo) : Bool :=
  decide (5 * w.sample_rate < w.n_frames)

/-- The four profile checks, in source order, after `duration_sec` is
computed.  When `sample_rate = 0` the Python division
`n_frames / sample_rate` raises `ZeroDivisionError` *before* any check
runs; the generic `except Exception` arm turns it into the parse-failure
detail with `str(e) = "division by zero"`. -/
def profileCheck (w : WavInfo) : Except (ℕ × String) WavInfo :=
  if w.sample_rate = 0 then
    .error (400, "Invalid WAV file: " ++ "division by zero")
  else if w.sample_rate ≠ ALLOWED_SAMPLE_RATE then .error (400, rateDetail w)
  else if w.channels ≠ ALLOWED_CHANNELS then .error (400, channelsDetail w)
  else if w.sample_width ≠ ALLOWED_SAMPLE_WIDTH then .error (400, widthDetail w)
  else if durationExceeded w then .error (400, durationDetail w)
  else .ok w

/-- Steps 1-3 of the handler: content-type gate, size limit, empty check,
WAV parse and profile checks.  Returns the parsed info on acceptance or
`(status, detail)` on rejection. -/
def validate (ct : Option String) (bs : List ℕ)
    (wavOpen : List ℕ → ParseOutcome) : Except (ℕ × String) WavInfo :=
  if contentTypeRejected ct then
    .error (415, "Unsupported media type: " ++ (ct.getD "" ++ ". Expected WAV audio."))
  else if MAX_UPLOAD_BYTES < bs.length then .error (413, sizeDetail bs.length)
  else if bs.length = 0 then .error (400, "Empty file received.")
  else
    match wavOpen bs with
    | .parseError m => .error (400, "Invalid WAV file: " ++ m)
    | .parsed w => profileCheck w

/-! ## PCM conversion (server.py lines 118-124) -/

/-- One little-endian signed 16-bit sample from a byte pair, as
`np.frombuffer(..., dtype=np.int16)` reads it. -/
def int16OfPair (lo hi : ℕ) : ℤ :=
  let v := lo % 256 + 256 * (hi % 256)
  if v < 32768 then (v : ℤ) else (v : ℤ) - 65536

/-- Decode consecutive byte pairs into int16 samples.  (`np.frombuffer`
refuses an odd byte count; the handler models that branch separately, so
this function is only applied to even-length buffers.) -/
def pcmToInt16 : List ℕ → List ℤ
  | lo :: hi :: rest => int16OfPair lo hi :: pcmToInt16 rest
  | _ => []

/-- `np.frombuffer(pcm, dtype=np.int16).astype(np.float32) / 32768.0`.
Every step is exact in float32 on this range (|sample| ≤ 32768 < 2^24 and
the divisor is a power of two), so ℚ models it exactly. -/
def audioOfPcm (pcm : List ℕ) : List ℚ :=
  (pcmToInt16 pcm).map (fun (v : ℤ) => (v : ℚ) / 32768)

/-- `whisper.pad_or_trim`: truncate to, or zero-pad up to, `N_SAMPLES`
elements.  Modelled from the spec: the whisper library is external; the
spec describes this step as "a fixed-duration buffer, zero-padded if
shorter, truncated if longer". -/
def padOrTrim (xs : List ℚ) : List ℚ :=
  if N_SAMPLES ≤ xs.length then xs.take N_SAMPLES
  else xs ++ List.replicate (N_SAMPLES - xs.length) 0

/-! ## The guarded section and the full handler (server.py lines 49-147) -/

/-- Models `try: <body> finally: _inference_lock.release()`: whatever the
body's outcome (normal return or exception), the `finally` clause runs and
the lock is no longer held afterwards. -/
def tryFinallyRelease (body : Except String String) (heldOnEntry : Bool) :
    Except String String × Bool :=
  (body, heldOnEntry && false)

/-- One run of the `transcribe` handler.

* `ct` — `file.content_type`;
* `bs` — the uploaded bytes (`await file.read()`);
* `wavOpen` — the (deterministic) outcome of `wave.open` + getters +
  `readframes` on a byte buffer;
* `lockAcquired` — whether `_inference_lock.acquire(timeout=LOCK_TIMEOUT_SEC)`
  returned `True`;
* `model` — the outcome of the whisper invocation in the guarded section.

An odd PCM byte count (possible for a truncated data chunk) makes
`np.frombuffer` raise `ValueError` outside every `try`, which surfaces as
the framework's plain 500 response before the lock is ever touched. -/
def transcribe (ct : Option String) (bs : List ℕ)
    (wavOpen : List ℕ → ParseOutcome) (lockAcquired : Bool)
    (model : Except String String) : ExecTrace :=
  match validate ct bs wavOpen with
  | .error (s, d) => ⟨.error s d, false, false, false, none⟩
  | .ok w =>
    if w.pcm.length % 2 ≠ 0 then
      ⟨.error 500 "Internal Server Error", false, false, false, none⟩
    else
      let audio_np := padOrTrim (audioOfPcm w.pcm)
      if lockAcquired = false then
        ⟨.error 503 "STT service busy. Try again shortly.", true, false, false, none⟩
      else
        match tryFinallyRelease model true with
        | (.error e, held) =>
          ⟨.error 500 ("Transcription failed: " ++ e), true, held, true, some audio_np⟩
        | (.ok t, held) =>
          ⟨.ok (pyLower (pyStrip t)), true, held, true, some audio_np⟩

/-! ## Helper lemmas -/

theorem transcribe_of_validate_error {ct : Option String} {bs : List ℕ}
    {wavOpen : List ℕ → ParseOutcome} {s : ℕ} {d : String}
    (l : Bool) (m : Except String String)
    (hv : validate ct bs wavOpen = .error (s, d)) :
    transcribe ct bs wavOpen l m = ⟨.error s d, false, false, false, none⟩ := by
  unfold transcribe
  rw [hv]

theorem transcribe_of_validate_ok_odd {ct : Option String} {bs : List ℕ}
    {wavOpen : List ℕ → ParseOutcome} {w : WavInfo}
    (l : Bool) (m : Except String String)
    (hv : validate ct bs wavOpen = .ok w) (hodd : w.pcm.length % 2 ≠ 0) :
    transcribe ct bs wavOpen l m
      = ⟨.error 500 "Internal Server Error", false, false, false, none⟩ := by
  unfold transcribe
  rw [hv]
  simp [hodd]

theorem transcribe_of_validate_ok_unlocked {ct : Option String} {bs : List ℕ}
    {wavOpen : List ℕ → ParseOutcome} {w : WavInfo}
    (m : Except String String)
    (hv : validate ct bs wavOpen = .ok w) (heven : w.pcm.length % 2 = 0) :
    transcribe ct bs wavOpen false m
      = ⟨.error 503 "STT service busy. Try again shortly.", true, false, false, none⟩ := by
  unfold transcribe
  rw [hv]
  simp [heven]

theorem transcribe_of_validate_ok_model_ok {ct : Option String} {bs : List ℕ}
    {wavOpen : List ℕ → ParseOutcome} {w : WavInfo} {t : String}
    (hv : validate ct bs wavOpen = .ok w) (heven : w.pcm.length % 2 = 0) :
    transcribe ct bs wavOpen true (.ok t)
      = ⟨.ok (pyLower (pyStrip t)), true, false, true,
          some (padOrTrim (audioOfPcm w.pcm))⟩ := by
  unfold transcribe
  rw [hv]
  simp [heven, tryFinallyRelease]

theorem transcribe_of_validate_ok_model_error {ct : Option String} {bs : List ℕ}
    {wavOpen : List ℕ → ParseOutcome} {w : WavInfo} {e : String}
    (hv : validate ct bs wavOpen = .ok w) (heven : w.pcm.length % 2 = 0) :
    transcribe ct bs wavOpen true (.error e)
      = ⟨.error 500 ("Transcription failed: " ++ e), true, false, true,
          some (padOrTrim (audioOfPcm w.pcm))⟩ := by
  unfold transcribe
  rw [hv]
  simp [heven, tryFinallyRelease]

/-- The integer duration check is the rational (hence, on the reachable
range, the binary64) comparison `n_frames / sample_rate > 5`. -/
theorem durationExceeded_iff_q (w : WavInfo) (h : 0 < w.sample_rate) :
    durationExceeded w = true
      ↔ MAX_AUDIO_DURATION_SEC < (w.n_frames : ℚ) / (w.sample_rate : ℚ) := by
  have hq : (0 : ℚ) < (w.sample_rate : ℚ) := by exact_mod_cast h
  unfold durationExceeded MAX_AUDIO_DURATION_SEC
  rw [decide_eq_true_eq, lt_div_iff₀ hq]
  constructor
  · intro hlt
    exact_mod_cast hlt
  · intro hlt
    exact_mod_cast hlt

theorem validate_of_ct_ok {ct : Option String} {bs : List ℕ}
    {wavOpen : List ℕ → ParseOutcome} {w : WavInfo}
    (hct : contentTypeRejected ct = false)
    (hsize : bs.length ≤ MAX_UPLOAD_BYTES) (hne : bs.length ≠ 0)
    (hparse : wavOpen bs = .parsed w) :
    validate ct bs wavOpen = profileCheck w := by
  unfold validate
  rw [hct, hparse]
  simp [Nat.not_lt.mpr hsize, hne]

/-! ## Claims -/

/-- C2: For every execution of the transcribe handler that acquires the
inference lock, the lock is released before the handler returns control to
the caller, on every exit path: on successful decoding and on any exception
raised by the model invocation; the lock is never still held after the
handler produces its response.  (Proved for every execution, whether or not
the lock was acquired.) -/
theorem c2_lock_released_on_every_path (ct : Option String) (bs : List ℕ)
    (wavOpen : List ℕ → ParseOutcome) (l : Bool) (m : Except String String) :
    (transcribe ct bs wavOpen l m).lockHeldAtReturn = false := by
  unfold transcribe
  cases hv : validate ct bs wavOpen with
  | error e => obtain ⟨s, d⟩ := e; rfl
  | ok w =>
    by_cases he : w.pcm.length % 2 ≠ 0
    · simp [he]
    · cases l
      · simp [he]
      · cases m <;> simp [he, tryFinallyRelease]

/-- C3 (amended): for every request that passes all upload and WAV
validation *and whose extracted PCM payload has an even byte count*, the
handler attempts to acquire the inference lock (with the bounded
10-second wait modelled by the `lockAcquired` parameter); if the lock is
not acquired within the timeout, the request fails with status 503 and the
model is never invoked. -/
theorem c3_lock_timeout_gives_503 (ct : Option String) (bs : List ℕ)
    (wavOpen : List ℕ → ParseOutcome) (model : Except String String)
    (w : WavInfo) (hv : validate ct bs wavOpen = .ok w)
    (heven : w.pcm.length % 2 = 0) :
    (transcribe ct bs wavOpen false model).lockAttempted = true ∧
    (transcribe ct bs wavOpen false model).response
      = .error 503 "STT service busy. Try again shortly." ∧
    (transcribe ct bs wavOpen false model).modelInvoked = false := by
  rw [transcribe_of_validate_ok_unlocked model hv heven]
  exact ⟨rfl, rfl, rfl⟩

/-- C3, witness: a concrete validated request with even PCM byte count that
fails to get the lock receives 503 and never reaches the model. -/
theorem c3_lock_timeout_gives_503_witness :
    validate none [1] (fun _ => ParseOutcome.parsed ⟨16000, 1, 2, 1, [7, 1]⟩)
      = .ok ⟨16000, 1, 2, 1, [7, 1]⟩ ∧
    ((transcribe none [1] (fun _ => ParseOutcome.parsed ⟨16000, 1, 2, 1, [7, 1]⟩)
        false (.ok "")).lockAttempted = true ∧
      (transcribe none [1] (fun _ => ParseOutcome.parsed ⟨16000, 1, 2, 1, [7, 1]⟩)
        false (.ok "")).response
        = .error 503 "STT service busy. Try again shortly." ∧
      (transcribe none [1] (fun _ => ParseOutcome.parsed ⟨16000, 1, 2, 1, [7, 1]⟩)
        false (.ok "")).modelInvoked = false) :=
  ⟨by decide,
    c3_lock_timeout_gives_503 none [1]
      (fun _ => ParseOutcome.parsed ⟨16000, 1, 2, 1, [7, 1]⟩) (.ok "")
      ⟨16000, 1, 2, 1, [7, 1]⟩ (by decide) (by decide)⟩

/-- C3, counterexample to the claim as stated: a WAV that passes every
upload and WAV validation step but whose truncated data chunk yields a
single PCM byte.  `np.frombuffer` then raises before the lock is ever
attempted, so even when the lock could not be acquired the response is the
framework's plain 500, not 503. -/
theorem c3_counterexample :
    validate none [1] (fun _ => ParseOutcome.parsed ⟨16000, 1, 2, 1, [7]⟩)
      = .ok ⟨16000, 1, 2, 1, [7]⟩ ∧
    (transcribe none [1] (fun _ => ParseOutcome.parsed ⟨16000, 1, 2, 1, [7]⟩)
      false (.ok "")).lockAttempted = false ∧
    (transcribe none [1] (fun _ => ParseOutcome.parsed ⟨16000, 1, 2, 1, [7]⟩)
      false (.ok "")).response = .error 500 "Internal Server Error" ∧
    (transcribe none [1] (fun _ => ParseOutcome.parsed ⟨16000, 1, 2, 1, [7]⟩)
      false (.ok "")).response
      ≠ .error 503 "STT service busy. Try again shortly." := by
  decide

/-- C9: the validation path is deterministic: two runs of the handler on
byte-for-byte identical upload bytes and identical declared content type
reach the same validation outcome — either both are rejected with the same
status code and detail, or both are accepted — independent of the lock and
model outcomes of each run. -/
theorem c9_validation_deterministic (ct : Option String) (bs : List ℕ)
    (wavOpen : List ℕ → ParseOutcome) (l₁ l₂ : Bool)
    (m₁ m₂ : Except String String) :
    (∃ s d, validate ct bs wavOpen = .error (s, d) ∧
      (transcribe ct bs wavOpen l₁ m₁).response = .error s d ∧
      (transcribe ct bs wavOpen l₂ m₂).response = .error s d) ∨
    (∃ w, validate ct bs wavOpen = .ok w) := by
  cases hv : validate ct bs wavOpen with
  | error e =>
    obtain ⟨s, d⟩ := e
    exact .inl ⟨s, d, rfl, by rw [transcribe_of_validate_error l₁ m₁ hv],
      by rw [transcribe_of_validate_error l₂ m₂ hv]⟩
  | ok w => exact .inr ⟨w, rfl⟩

/-- C4 (amended): for every successfully parsed WAV upload *with a nonzero
sample rate*, the four profile checks run in the fixed order rate, then
channels, then sample width, then duration, short-circuiting at the first
failure; in particular a sample rate differing from 16000 yields 400 with a
detail naming the actual and the expected rate, whatever the other
properties.  (A declared rate of zero instead hits `ZeroDivisionError` in
the eager duration computation and is rejected 400 with the generic
`Invalid WAV file: division by zero` detail.) -/
theorem c4_profile_check_order (ct : Option String) (bs : List ℕ)
    (wavOpen : List ℕ → ParseOutcome) (l : Bool) (m : Except String String)
    (w : WavInfo) (hct : contentTypeRejected ct = false)
    (hsize : bs.length ≤ MAX_UPLOAD_BYTES) (hne : bs.length ≠ 0)
    (hparse : wavOpen bs = .parsed w) (hrate0 : w.sample_rate ≠ 0) :
    (w.sample_rate ≠ ALLOWED_SAMPLE_RATE →
      (transcribe ct bs wavOpen l m).response = .error 400 (rateDetail w)) ∧
    (w.sample_rate = ALLOWED_SAMPLE_RATE → w.channels ≠ ALLOWED_CHANNELS →
      (transcribe ct bs wavOpen l m).response = .error 400 (channelsDetail w)) ∧
    (w.sample_rate = ALLOWED_SAMPLE_RATE → w.channels = ALLOWED_CHANNELS →
      w.sample_width ≠ ALLOWED_SAMPLE_WIDTH →
      (transcribe ct bs wavOpen l m).response = .error 400 (widthDetail w)) ∧
    (w.sample_rate = ALLOWED_SAMPLE_RATE → w.channels = ALLOWED_CHANNELS →
      w.sample_width = ALLOWED_SAMPLE_WIDTH → durationExceeded w = true →
      (transcribe ct bs wavOpen l m).response = .error 400 (durationDetail w)) := by
  have hv : validate ct bs wavOpen = profileCheck w :=
    validate_of_ct_ok hct hsize hne hparse
  refine ⟨?_, ?_, ?_, ?_⟩
  · intro h1
    have hp : profileCheck w = .error (400, rateDetail w) := by
      unfold profileCheck
      simp [hrate0, h1]
    rw [transcribe_of_validate_error l m (hv.trans hp)]
  · intro h1 h2
    have hp : profileCheck w = .error (400, channelsDetail w) := by
      unfold profileCheck
      simp [h1, h2, show ALLOWED_SAMPLE_RATE ≠ 0 from by decide]
    rw [transcribe_of_validate_error l m (hv.trans hp)]
  · intro h1 h2 h3
    have hp : profileCheck w = .error (400, widthDetail w) := by
      unfold profileCheck
      simp [h1, h2, h3, show ALLOWED_SAMPLE_RATE ≠ 0 from by decide]
    rw [transcribe_of_validate_error l m (hv.trans hp)]
  · intro h1 h2 h3 h4
    have hp : profileCheck w = .error (400, durationDetail w) := by
      unfold profileCheck
      simp [h1, h2, h3, h4, show ALLOWED_SAMPLE_RATE ≠ 0 from by decide]
    rw [transcribe_of_validate_error l m (hv.trans hp)]

/-- C4, witness: a parsed WAV whose rate, channels, width and duration are
all wrong is rejected on the rate alone, with a detail naming 8000 and
16000; the later checks are short-circuited. -/
theorem c4_profile_check_order_witness :
    (transcribe none [1] (fun _ => ParseOutcome.parsed ⟨8000, 2, 1, 999999, []⟩)
      true (.ok "")).response
      = .error 400 "Invalid sample rate: 8000. Expected 16000." := by
  have h := (c4_profile_check_order none [1]
    (fun _ => ParseOutcome.parsed ⟨8000, 2, 1, 999999, []⟩) true (.ok "")
    ⟨8000, 2, 1, 999999, []⟩ (by decide) (by decide) (by decide) (by decide)
    (by decide)).1 (by decide)
  rw [h]
  decide

/-- C4, counterexample to the claim as stated: a WAV whose header declares
sample rate 0 parses (the CPython 3.11 `wave` module does not validate the
rate field), differs from 16000, yet is rejected with the generic
division-by-zero detail rather than one naming the actual and expected
rates. -/
theorem c4_counterexample :
    (transcribe none [1] (fun _ => ParseOutcome.parsed ⟨0, 1, 2, 0, []⟩)
      true (.ok "")).response
      = .error 400 ("Invalid WAV file: " ++ "division by zero") ∧
    (0 : ℕ) ≠ ALLOWED_SAMPLE_RATE ∧
    (transcribe none [1] (fun _ => ParseOutcome.parsed ⟨0, 1, 2, 0, []⟩)
      true (.ok "")).response
      ≠ .error 400 (rateDetail ⟨0, 1, 2, 0, []⟩) := by
  decide

/-- C5: for every WAV upload passing the rate/channels/width checks, a
duration (frame count over sample rate) strictly greater than 5.0 seconds
is rejected 400 with a detail reporting the measured duration to one
decimal and the maximum "5.0s"; a duration of at most 5.0 seconds
(in particular exactly 5.0) passes validation. -/
theorem c5_duration_limit (ct : Option String) (bs : List ℕ)
    (wavOpen : List ℕ → ParseOutcome) (l : Bool) (m : Except String String)
    (w : WavInfo) (hct : contentTypeRejected ct = false)
    (hsize : bs.length ≤ MAX_UPLOAD_BYTES) (hne : bs.length ≠ 0)
    (hparse : wavOpen bs = .parsed w)
    (hrate : w.sample_rate = ALLOWED_SAMPLE_RATE)
    (hch : w.channels = ALLOWED_CHANNELS)
    (hwidth : w.sample_width = ALLOWED_SAMPLE_WIDTH) :
    (MAX_AUDIO_DURATION_SEC < (w.n_frames : ℚ) / (w.sample_rate : ℚ) →
      (transcribe ct bs wavOpen l m).response = .error 400 (durationDetail w)) ∧
    ((w.n_frames : ℚ) / (w.sample_rate : ℚ) ≤ MAX_AUDIO_DURATION_SEC →
      validate ct bs wavOpen = .ok w) := by
  have hv : validate ct bs wavOpen = profileCheck w :=
    validate_of_ct_ok hct hsize hne hparse
  have hpos : 0 < w.sample_rate := by rw [hrate]; decide
  constructor
  · intro hdur
    have hde : durationExceeded w = true := (durationExceeded_iff_q w hpos).mpr hdur
    have hp : profileCheck w = .error (400, durationDetail w) := by
      unfold profileCheck
      simp [hrate, hch, hwidth, hde, show ALLOWED_SAMPLE_RATE ≠ 0 from by decide]
    rw [transcribe_of_validate_error l m (hv.trans hp)]
  · intro hdur
    have hde : durationExceeded w = false := by
      rw [← Bool.not_eq_true]
      intro h
      exact absurd ((durationExceeded_iff_q w hpos).mp h) (not_lt.mpr hdur)
    have hp : profileCheck w = .ok w := by
      unfold profileCheck
      simp [hrate, hch, hwidth, hde, show ALLOWED_SAMPLE_RATE ≠ 0 from by decide]
    rw [hv, hp]

/-- C5, witness: a 6.0 s clip (96000 frames at 16 kHz) is rejected with
detail "Audio too long: 6.0s. Max: 5.0s.", and a clip of exactly 5.0 s
(80000 frames) passes validation. -/
theorem c5_duration_limit_witness :
    (transcribe none [1] (fun _ => ParseOutcome.parsed ⟨16000, 1, 2, 96000, []⟩)
      true (.ok "x")).response = .error 400 "Audio too long: 6.0s. Max: 5.0s." ∧
    validate none [1] (fun _ => ParseOutcome.parsed ⟨16000, 1, 2, 80000, []⟩)
      = .ok ⟨16000, 1, 2, 80000, []⟩ := by
  constructor
  · have h := (c5_duration_limit none [1]
      (fun _ => ParseOutcome.parsed ⟨16000, 1, 2, 96000, []⟩) true (.ok "x")
      ⟨16000, 1, 2, 96000, []⟩ (by decide) (by decide) (by decide) (by decide)
      rfl rfl rfl).1 (by norm_num [MAX_AUDIO_DURATION_SEC])
    rw [h]
    decide
  · exact (c5_duration_limit none [1]
      (fun _ => ParseOutcome.parsed ⟨16000, 1, 2, 80000, []⟩) true (.ok "x")
      ⟨16000, 1, 2, 80000, []⟩ (by decide) (by decide) (by decide) (by decide)
      rfl rfl rfl).2 (by norm_num [MAX_AUDIO_DURATION_SEC])

/-- C6 (amended): for every upload that is not rejected by the preceding
content-type gate, a byte length strictly exceeding 1 MiB (1048576 bytes)
yields status 413 with a detail reporting both the actual byte count and
the maximum, regardless of content validity.  (An oversized upload with a
present, non-empty, disallowed content type is instead rejected 415 by the
gate, which runs first.) -/
theorem c6_payload_too_large (ct : Option String) (bs : List ℕ)
    (wavOpen : List ℕ → ParseOutcome) (l : Bool) (m : Except String String)
    (hct : contentTypeRejected ct = false)
    (hsize : MAX_UPLOAD_BYTES < bs.length) :
    (transcribe ct bs wavOpen l m).response = .error 413 (sizeDetail bs.length) := by
  have hv : validate ct bs wavOpen = .error (413, sizeDetail bs.length) := by
    unfold validate
    rw [hct]
    simp [hsize]
  rw [transcribe_of_validate_error l m hv]

/-- C6, witness: an upload of 1048577 zero bytes with no declared content
type is rejected 413 with both byte counts in the detail. -/
theorem c6_payload_too_large_witness :
    (transcribe none (List.replicate 1048577 0) (fun _ => ParseOutcome.parseError "x")
      true (.ok "")).response
      = .error 413 "File too large: 1048577 bytes. Max: 1048576 bytes." := by
  have h := c6_payload_too_large none (List.replicate 1048577 0)
    (fun _ => ParseOutcome.parseError "x") true (.ok "") (by decide)
    (by rw [List.length_replicate]; decide)
  rw [List.length_replicate] at h
  rw [h]
  decide

/-- C6, counterexample to the claim as stated: an upload of 1048577 bytes
whose declared content type is `text/plain` is rejected 415 by the
content-type gate, not 413, even though its byte length exceeds 1 MiB. -/
theorem c6_counterexample :
    (transcribe (some "text/plain") (List.replicate 1048577 0)
      (fun _ => ParseOutcome.parseError "x") true (.ok "")).response
      = .error 415 "Unsupported media type: text/plain. Expected WAV audio." ∧
    MAX_UPLOAD_BYTES < (List.replicate 1048577 (0 : ℕ)).length ∧
    Resp.error 415 "Unsupported media type: text/plain. Expected WAV audio."
      ≠ Resp.error 413 "File too large: 1048577 bytes. Max: 1048576 bytes." := by
  refine ⟨?_, by rw [List.length_replicate]; decide, by decide⟩
  have hv : validate (some "text/plain") (List.replicate 1048577 0)
      (fun _ => ParseOutcome.parseError "x")
      = .error (415, "Unsupported media type: text/plain. Expected WAV audio.") := rfl
  rw [transcribe_of_validate_error true (.ok "") hv]

theorem profileCheck_error_status (w : WavInfo) (s : ℕ) (d : String)
    (h : profileCheck w = .error (s, d)) : s = 400 := by
  unfold profileCheck at h
  split at h
  · simp only [Except.error.injEq, Prod.mk.injEq] at h
    exact h.1.symm
  · split at h
    · simp only [Except.error.injEq, Prod.mk.injEq] at h
      exact h.1.symm
    · split at h
      · simp only [Except.error.injEq, Prod.mk.injEq] at h
        exact h.1.symm
      · split at h
        · simp only [Except.error.injEq, Prod.mk.injEq] at h
          exact h.1.symm
        · split at h
          · simp only [Except.error.injEq, Prod.mk.injEq] at h
            exact h.1.symm
          · exact absurd h (by simp)

theorem validate_error_status (ct : Option String) (bs : List ℕ)
    (wavOpen : List ℕ → ParseOutcome) (s : ℕ) (d : String)
    (hct : contentTypeRejected ct = false)
    (hv : validate ct bs wavOpen = .error (s, d)) : s = 413 ∨ s = 400 := by
  unfold validate at hv
  simp only [hct, Bool.false_eq_true, if_false] at hv
  split at hv
  · simp only [Except.error.injEq, Prod.mk.injEq] at hv
    exact .inl hv.1.symm
  · split at hv
    · simp only [Except.error.injEq, Prod.mk.injEq] at hv
      exact .inr hv.1.symm
    · split at hv
      · simp only [Except.error.injEq, Prod.mk.injEq] at hv
        exact .inr hv.1.symm
      · exact .inr (profileCheck_error_status _ _ _ hv)

/-- C7 (amended): every request whose declared content type is present,
*non-empty*, and not in the allow-list is rejected 415 before any bytes
are parsed (the 415 result does not depend on the bytes or the parse), and
no request whose content type does not trigger the gate — absent,
empty-string, or allow-listed — is ever answered with a 415. -/
theorem c7_content_type_gate :
    (∀ (c : String) (bs : List ℕ) (wavOpen : List ℕ → ParseOutcome) (l : Bool)
        (m : Except String String), c ≠ "" →
        allowedContentTypes.contains c = false →
        (transcribe (some c) bs wavOpen l m).response
          = .error 415 ("Unsupported media type: " ++ (c ++ ". Expected WAV audio.")))
    ∧ (∀ (ct : Option String) (bs : List ℕ) (wavOpen : List ℕ → ParseOutcome)
        (l : Bool) (m : Except String String) (s : ℕ) (d : String),
        contentTypeRejected ct = false →
        (transcribe ct bs wavOpen l m).response = .error s d → s ≠ 415) := by
  constructor
  · intro c bs wavOpen l m hcne hclist
    have hct : contentTypeRejected (some c) = true := by
      show (decide (c ≠ "") && !allowedContentTypes.contains c) = true
      rw [hclist]
      simp [hcne]
    have hv : validate (some c) bs wavOpen
        = .error (415, "Unsupported media type: " ++ (c ++ ". Expected WAV audio.")) := by
      unfold validate
      simp [hct]
    rw [transcribe_of_validate_error l m hv]
  · intro ct bs wavOpen l m s d hct h
    cases hv : validate ct bs wavOpen with
    | error e =>
      obtain ⟨s', d'⟩ := e
      have h2 : Resp.error s' d' = Resp.error s d := by
        rw [transcribe_of_validate_error l m hv] at h
        exact h
      injection h2 with hs hd
      rcases validate_error_status ct bs wavOpen s' d' hct hv with h' | h' <;> omega
    | ok w =>
      by_cases he : w.pcm.length % 2 ≠ 0
      · have h2 : Resp.error 500 "Internal Server Error" = Resp.error s d := by
          rw [transcribe_of_validate_ok_odd l m hv he] at h
          exact h
        injection h2 with hs hd
        omega
      · have heven : w.pcm.length % 2 = 0 := by omega
        cases l with
        | false =>
          have h2 : Resp.error 503 "STT service busy. Try again shortly."
              = Resp.error s d := by
            rw [transcribe_of_validate_ok_unlocked m hv heven] at h
            exact h
          injection h2 with hs hd
          omega
        | true =>
          cases m with
          | error e =>
            have h2 : Resp.error 500 ("Transcription failed: " ++ e)
                = Resp.error s d := by
              rw [transcribe_of_validate_ok_model_error hv heven] at h
              exact h
            injection h2 with hs hd
            omega
          | ok t =>
            have h2 : Resp.ok (pyLower (pyStrip t)) = Resp.error s d := by
              rw [transcribe_of_validate_ok_model_ok hv heven] at h
              exact h
            exact absurd h2 (by simp)

/-- C7, witness: a request declaring `text/html` is rejected 415 with the
detail naming the offending type, whatever bytes it carries. -/
theorem c7_content_type_gate_witness :
    (transcribe (some "text/html") [1, 2, 3] (fun _ => ParseOutcome.parseError "x")
      true (.ok "")).response
      = .error 415 "Unsupported media type: text/html. Expected WAV audio." := by
  have h := c7_content_type_gate.1 "text/html" [1, 2, 3]
    (fun _ => ParseOutcome.parseError "x") true (.ok "") (by decide) (by decide)
  rw [h]
  decide

/-- C7, counterexample to the claim as stated: an empty-string content type
is present and not in the allow-list, yet Python truthiness skips the 415
gate — the request proceeds and (with an empty body) is answered 400
"Empty file received.", not 415. -/
theorem c7_counterexample :
    (transcribe (some "") [] (fun _ => ParseOutcome.parseError "m") true
      (.ok "")).response = .error 400 "Empty file received." ∧
    allowedContentTypes.contains "" = false ∧
    (transcribe (some "") [] (fun _ => ParseOutcome.parseError "m") true
      (.ok "")).response
      ≠ .error 415 "Unsupported media type: . Expected WAV audio." := by
  decide

/-- C1: for every request with a valid WAV upload (it passed every check in
`validate`, with an intact PCM payload) whose model invocation succeeds
with raw text `t`, the response body is `{"text": t.strip().lower()}` —
the raw output with surrounding whitespace stripped, then lowercased, and
no other transformation. -/
theorem c1_response_text_strip_lower (ct : Option String) (bs : List ℕ)
    (wavOpen : List ℕ → ParseOutcome) (t : String) (w : WavInfo)
    (hv : validate ct bs wavOpen = .ok w) (heven : w.pcm.length % 2 = 0) :
    (transcribe ct bs wavOpen true (.ok t)).response = .ok (pyLower (pyStrip t)) := by
  rw [transcribe_of_validate_ok_model_ok hv heven]

set_option maxRecDepth 32768 in
/-- C1, witness: a valid one-frame clip whose model answers
"  Hello WORLD \n" is answered `{"text": "hello world"}`, and one whose
model answers "  Hello ΣΊΣΥΦΟΣ \n" is answered `{"text": "hello σίσυφος"}`
— Unicode lowercasing included, with the contextual final sigma. -/
theorem c1_response_text_strip_lower_witness :
    (transcribe none [1] (fun _ => ParseOutcome.parsed ⟨16000, 1, 2, 1, [5, 1]⟩)
      true (.ok "  Hello WORLD \n")).response = .ok "hello world" ∧
    (transcribe none [1] (fun _ => ParseOutcome.parsed ⟨16000, 1, 2, 1, [5, 1]⟩)
      true (.ok "  Hello ΣΊΣΥΦΟΣ \n")).response = .ok "hello σίσυφος" := by
  constructor
  · have h := c1_response_text_strip_lower none [1]
      (fun _ => ParseOutcome.parsed ⟨16000, 1, 2, 1, [5, 1]⟩) "  Hello WORLD \n"
      ⟨16000, 1, 2, 1, [5, 1]⟩ (by decide) (by decide)
    rw [h]
    decide
  · have h := c1_response_text_strip_lower none [1]
      (fun _ => ParseOutcome.parsed ⟨16000, 1, 2, 1, [5, 1]⟩) "  Hello ΣΊΣΥΦΟΣ \n"
      ⟨16000, 1, 2, 1, [5, 1]⟩ (by decide) (by decide)
    rw [h]
    decide

theorem int16OfPair_bounds (lo hi : ℕ) :
    -32768 ≤ int16OfPair lo hi ∧ int16OfPair lo hi ≤ 32767 := by
  have h1 : lo % 256 < 256 := Nat.mod_lt _ (by norm_num)
  have h2 : hi % 256 < 256 := Nat.mod_lt _ (by norm_num)
  simp only [int16OfPair]
  split <;> omega

theorem pcmToInt16_mem : ∀ (pcm : List ℕ) (v : ℤ), v ∈ pcmToInt16 pcm →
    -32768 ≤ v ∧ v ≤ 32767
  | [], v, hv => by simp [pcmToInt16] at hv
  | [_], v, hv => by simp [pcmToInt16] at hv
  | lo :: hi :: rest, v, hv => by
    simp only [pcmToInt16, List.mem_cons] at hv
    rcases hv with rfl | hv
    · exact int16OfPair_bounds lo hi
    · exact pcmToInt16_mem rest v hv

theorem audioOfPcm_bounds (pcm : List ℕ) : ∀ x ∈ audioOfPcm pcm, -1 ≤ x ∧ x ≤ 1 := by
  intro x hx
  unfold audioOfPcm at hx
  obtain ⟨v, hv, hfx⟩ := List.mem_map.mp hx
  rw [← hfx]
  obtain ⟨hlo, hhi⟩ := pcmToInt16_mem pcm v hv
  have hlo' : (-32768 : ℚ) ≤ (v : ℚ) := by exact_mod_cast hlo
  have hhi' : (v : ℚ) ≤ 32767 := by exact_mod_cast hhi
  constructor
  · rw [le_div_iff₀ (by norm_num : (0 : ℚ) < 32768)]
    linarith
  · rw [div_le_one (by norm_num : (0 : ℚ) < 32768)]
    linarith

theorem padOrTrim_length (xs : List ℚ) : (padOrTrim xs).length = N_SAMPLES := by
  unfold padOrTrim
  split
  · rw [List.length_take]
    omega
  · rw [List.length_append, List.length_replicate]
    omega

/-- C8: for every validated PCM payload, every converted sample — a signed
16-bit value divided by 32768 — lies in [-1, 1], and the sequence handed
to the model is that sample list padded with zeros or truncated to the
fixed window length `N_SAMPLES` before inference. -/
theorem c8_pcm_normalization (ct : Option String) (bs : List ℕ)
    (wavOpen : List ℕ → ParseOutcome) (model : Except String String)
    (w : WavInfo) (hv : validate ct bs wavOpen = .ok w)
    (heven : w.pcm.length % 2 = 0) :
    (transcribe ct bs wavOpen true model).modelInvoked = true ∧
    (transcribe ct bs wavOpen true model).modelInput
      = some (padOrTrim (audioOfPcm w.pcm)) ∧
    (∀ x ∈ audioOfPcm w.pcm, -1 ≤ x ∧ x ≤ 1) ∧
    (padOrTrim (audioOfPcm w.pcm)).length = N_SAMPLES := by
  refine ⟨?_, ?_, audioOfPcm_bounds w.pcm, padOrTrim_length _⟩
  · cases model with
    | ok t => rw [transcribe_of_validate_ok_model_ok hv heven]
    | error e => rw [transcribe_of_validate_ok_model_error hv heven]
  · cases model with
    | ok t => rw [transcribe_of_validate_ok_model_ok hv heven]
    | error e => rw [transcribe_of_validate_ok_model_error hv heven]

/-- C8, witness: a valid two-byte payload reaches the model as its
normalized, padded sample buffer, with every converted sample in [-1, 1]. -/
theorem c8_pcm_normalization_witness :
    (transcribe none [1] (fun _ => ParseOutcome.parsed ⟨16000, 1, 2, 2, [52, 3]⟩)
      true (.ok "")).modelInvoked = true ∧
    (transcribe none [1] (fun _ => ParseOutcome.parsed ⟨16000, 1, 2, 2, [52, 3]⟩)
      true (.ok "")).modelInput = some (padOrTrim (audioOfPcm [52, 3])) ∧
    (∀ x ∈ audioOfPcm [52, 3], -1 ≤ x ∧ x ≤ 1) ∧
    (padOrTrim (audioOfPcm [52, 3])).length = N_SAMPLES :=
  c8_pcm_normalization none [1]
    (fun _ => ParseOutcome.parsed ⟨16000, 1, 2, 2, [52, 3]⟩) (.ok "")
    ⟨16000, 1, 2, 2, [52, 3]⟩ (by decide) (by decide)

theorem append_ne_append (p q x y : String) (k : ℕ)
    (hk₁ : k ≤ p.data.length) (hk₂ : k ≤ q.data.length)
    (hne : p.data.take k ≠ q.data.take k) : p ++ x ≠ q ++ y := by
  intro he
  apply hne
  have hd : (p ++ x).data = (q ++ y).data := by rw [he]
  rw [String.data_append, String.data_append] at hd
  have ht := congrArg (List.take k) hd
  rwa [List.take_append_of_le_length hk₁, List.take_append_of_le_length hk₂] at ht

/-- C10 (amended): for every upload that parses as a WAV container *with a
nonzero declared sample rate* but violates one of the profile checks, the
400 response carries the specific profile-check detail and that detail is
never of the generic `Invalid WAV file: <error>` form; non-`HTTPException`
exceptions raised during WAV parsing (including the `ZeroDivisionError`
produced by a zero declared sample rate) are the source of the generic
parse-failure detail. -/
theorem c10_profile_errors_not_rewrapped (ct : Option String) (bs : List ℕ)
    (wavOpen : List ℕ → ParseOutcome) (l : Bool) (m : Except String String)
    (hct : contentTypeRejected ct = false)
    (hsize : bs.length ≤ MAX_UPLOAD_BYTES) (hne : bs.length ≠ 0) :
    (∀ w, wavOpen bs = .parsed w → w.sample_rate ≠ 0 →
      ((w.sample_rate ≠ ALLOWED_SAMPLE_RATE →
        (transcribe ct bs wavOpen l m).response = .error 400 (rateDetail w) ∧
        ∀ msg, rateDetail w ≠ "Invalid WAV file: " ++ msg) ∧
      (w.sample_rate = ALLOWED_SAMPLE_RATE → w.channels ≠ ALLOWED_CHANNELS →
        (transcribe ct bs wavOpen l m).response = .error 400 (channelsDetail w) ∧
        ∀ msg, channelsDetail w ≠ "Invalid WAV file: " ++ msg) ∧
      (w.sample_rate = ALLOWED_SAMPLE_RATE → w.channels = ALLOWED_CHANNELS →
        w.sample_width ≠ ALLOWED_SAMPLE_WIDTH →
        (transcribe ct bs wavOpen l m).response = .error 400 (widthDetail w) ∧
        ∀ msg, widthDetail w ≠ "Invalid WAV file: " ++ msg) ∧
      (w.sample_rate = ALLOWED_SAMPLE_RATE → w.channels = ALLOWED_CHANNELS →
        w.sample_width = ALLOWED_SAMPLE_WIDTH → durationExceeded w = true →
        (transcribe ct bs wavOpen l m).response = .error 400 (durationDetail w) ∧
        ∀ msg, durationDetail w ≠ "Invalid WAV file: " ++ msg))) ∧
    (∀ msg, wavOpen bs = .parseError msg →
      (transcribe ct bs wavOpen l m).response
        = .error 400 ("Invalid WAV file: " ++ msg)) := by
  constructor
  · intro w hparse hrate0
    have hv : validate ct bs wavOpen = profileCheck w :=
      validate_of_ct_ok hct hsize hne hparse
    refine ⟨?_, ?_, ?_, ?_⟩
    · intro h1
      have hp : profileCheck w = .error (400, rateDetail w) := by
        unfold profileCheck
        simp [hrate0, h1]
      refine ⟨by rw [transcribe_of_validate_error l m (hv.trans hp)], ?_⟩
      intro msg
      exact append_ne_append "Invalid sample rate: " "Invalid WAV file: " _ msg 11
        (by decide) (by decide) (by decide)
    · intro h1 h2
      have hp : profileCheck w = .error (400, channelsDetail w) := by
        unfold profileCheck
        simp [h1, h2, show ALLOWED_SAMPLE_RATE ≠ 0 from by decide]
      refine ⟨by rw [transcribe_of_validate_error l m (hv.trans hp)], ?_⟩
      intro msg
      exact append_ne_append "Invalid channels: " "Invalid WAV file: " _ msg 9
        (by decide) (by decide) (by decide)
    · intro h1 h2 h3
      have hp : profileCheck w = .error (400, widthDetail w) := by
        unfold profileCheck
        simp [h1, h2, h3, show ALLOWED_SAMPLE_RATE ≠ 0 from by decide]
      refine ⟨by rw [transcribe_of_validate_error l m (hv.trans hp)], ?_⟩
      intro msg
      exact append_ne_append "Invalid sample width: " "Invalid WAV file: " _ msg 11
        (by decide) (by decide) (by decide)
    · intro h1 h2 h3 h4
      have hp : profileCheck w = .error (400, durationDetail w) := by
        unfold profileCheck
        simp [h1, h2, h3, h4, show ALLOWED_SAMPLE_RATE ≠ 0 from by decide]
      refine ⟨by rw [transcribe_of_validate_error l m (hv.trans hp)], ?_⟩
      intro msg
      exact append_ne_append "Audio too long: " "Invalid WAV file: " _ msg 1
        (by decide) (by decide) (by decide)
  · intro msg hparse
    have hv : validate ct bs wavOpen = .error (400, "Invalid WAV file: " ++ msg) := by
      unfold validate
      rw [hct, hparse]
      simp [Nat.not_lt.mpr hsize, hne]
    rw [transcribe_of_validate_error l m hv]

/-- C10, witness: a stereo but otherwise valid WAV keeps the specific
channels detail, which is not of the generic form; a parse failure is
wrapped as `Invalid WAV file: <error>`. -/
theorem c10_profile_errors_not_rewrapped_witness :
    (transcribe none [1] (fun _ => ParseOutcome.parsed ⟨16000, 2, 2, 0, []⟩)
      true (.ok "")).response = .error 400 "Invalid channels: 2. Expected mono (1)." ∧
    channelsDetail ⟨16000, 2, 2, 0, []⟩ ≠ "Invalid WAV file: " ++ "bad chunk" ∧
    (transcribe none [1] (fun _ => ParseOutcome.parseError "fmt chunk missing")
      true (.ok "")).response = .error 400 "Invalid WAV file: fmt chunk missing" := by
  obtain ⟨hresp, hne2⟩ :=
    (((c10_profile_errors_not_rewrapped none [1]
      (fun _ => ParseOutcome.parsed ⟨16000, 2, 2, 0, []⟩) true (.ok "")
      (by decide) (by decide) (by decide)).1 ⟨16000, 2, 2, 0, []⟩ rfl
      (by decide)).2.1 rfl (by decide))
  refine ⟨by rw [hresp]; decide, hne2 "bad chunk", ?_⟩
  have h3 := (c10_profile_errors_not_rewrapped none [1]
    (fun _ => ParseOutcome.parseError "fmt chunk missing") true (.ok "")
    (by decide) (by decide) (by decide)).2 "fmt chunk missing" rfl
  rw [h3]
  decide

/-- C10, counterexample to the claim as stated: a parsed WAV with declared
sample rate 0 violates the rate profile, yet its 400 detail is exactly the
generic parse-failure form (from the `ZeroDivisionError` computed before
the checks), not the specific rate message. -/
theorem c10_counterexample :
    (transcribe none [1] (fun _ => ParseOutcome.parsed ⟨0, 2, 9, 0, []⟩) true
      (.ok "")).response = .error 400 ("Invalid WAV file: " ++ "division by zero") ∧
    (WavInfo.mk 0 2 9 0 []).sample_rate ≠ ALLOWED_SAMPLE_RATE ∧
    (transcribe none [1] (fun _ => ParseOutcome.parsed ⟨0, 2, 9, 0, []⟩) true
      (.ok "")).response ≠ .error 400 (rateDetail ⟨0, 2, 9, 0, []⟩) ∧
    (transcribe none [1] (fun _ => ParseOutcome.parsed ⟨0, 2, 9, 0, []⟩) true
      (.ok "")).response ≠ .error 400 (channelsDetail ⟨0, 2, 9, 0, []⟩) ∧
    (transcribe none [1] (fun _ => ParseOutcome.parsed ⟨0, 2, 9, 0, []⟩) true
      (.ok "")).response ≠ .error 400 (widthDetail ⟨0, 2, 9, 0, []⟩) := by
  decide
